import Mathlib

/-!
Shallow embedding of the hodos failover daemon (github.com/jsimonetti/hodos):
the per-interface up-host counters, the link-up/link-down control paths, the
ICMP verdict computation, the route-metric rewrite helpers, the hook-script
invocation, configuration validation, and policy-rule construction.
Each definition is translated from the corresponding Go source function.
-/

namespace Hodos

/-! Constants from golang.org/x/sys/unix used by the sources. -/

def AF_INET : Nat := 2
def AF_INET6 : Nat := 10
def RT_TABLE_MAIN : Nat := 254
def RT_TABLE_LOCAL : Nat := 255
def FR_ACT_TO_TBL : Nat := 1

/-- Model of a parsed `net.IP` value.  `v4` mirrors `ip.To4() != nil`;
`str` is the canonical textual form produced by `(net.IP).String()`.
The textual parser `net.ParseIP` (standard library, external to the
repository) is abstracted away: hosts carry an already-parsed address. -/
structure IP where
  v4 : Bool
  str : String
deriving DecidableEq, Repr

/-- `config.Host` from internal/config/host.go. -/
structure Host where
  Name : String
  Host : IP
  Debug : Bool
  Family : Nat
  BurstInterval : Int
  BurstSize : Int
  ICMPInterval : Int
  ICMPTimeout : Int
deriving DecidableEq, Repr

/-- `config.Interface` from internal/config (host.go).  Durations are
`time.Duration` nanosecond counts, modelled as `Int`; the atomic `int32`
counters `upHostsv4`/`upHostsv6`/`totalHostsv4`/`totalHostsv6` are modelled
as `Int` (all reachable values in the claims are far from the `int32`
bounds). -/
structure Interface where
  Name : String
  Description : String
  Debug : Bool
  Table : Nat
  Metric : Nat
  UpAction : String
  DownAction : String
  BurstInterval : Int
  BurstSize : Int
  ICMPInterval : Int
  ICMPTimeout : Int
  MinimumUp : Int
  upHostsv4 : Int
  upHostsv6 : Int
  totalHostsv4 : Int
  totalHostsv6 : Int
  Hosts : List Host
deriving DecidableEq, Repr

/-- `(*Interface).LinkDown`: store 0 into both counters. -/
def Interface.LinkDown (i : Interface) : Interface :=
  { i with upHostsv4 := 0, upHostsv6 := 0 }

/-- `(*Interface).hostDownv4`: decrement `upHostsv4`; when the result is
negative the source stores 0 into `upHostsv6` (the v6 counter, exactly as
written in the Go source); report whether the decremented value equals
`MinimumUp - 1`. -/
def Interface.hostDownv4 (i : Interface) : Interface × Bool :=
  let up := i.upHostsv4 - 1
  let i1 := { i with upHostsv4 := up }
  let i2 := if up < 0 then { i1 with upHostsv6 := 0 } else i1
  (i2, up == i.MinimumUp - 1)

/-- `(*Interface).hostUpv4`: increment `upHostsv4`, storing `totalHostsv4`
back when the result exceeds it; report whether the incremented value equals
`MinimumUp`. -/
def Interface.hostUpv4 (i : Interface) : Interface × Bool :=
  let up := i.upHostsv4 + 1
  let i1 := { i with upHostsv4 := up }
  let i2 := if up > i.totalHostsv4 then { i1 with upHostsv4 := i.totalHostsv4 } else i1
  (i2, up == i.MinimumUp)

/-- `(*Interface).hostDownv6`: decrement `upHostsv6`, storing 0 back when the
result is negative; report whether the decremented value equals
`MinimumUp - 1`. -/
def Interface.hostDownv6 (i : Interface) : Interface × Bool :=
  let up := i.upHostsv6 - 1
  let i1 := { i with upHostsv6 := up }
  let i2 := if up < 0 then { i1 with upHostsv6 := 0 } else i1
  (i2, up == i.MinimumUp - 1)

/-- `(*Interface).hostUpv6`: increment `upHostsv6`, storing `totalHostsv6`
back when the result exceeds it; report whether the incremented value equals
`MinimumUp`. -/
def Interface.hostUpv6 (i : Interface) : Interface × Bool :=
  let up := i.upHostsv6 + 1
  let i1 := { i with upHostsv6 := up }
  let i2 := if up > i.totalHostsv6 then { i1 with upHostsv6 := i.totalHostsv6 } else i1
  (i2, up == i.MinimumUp)

/-- `(*Interface).HostDown`. -/
def Interface.HostDown (i : Interface) (family : Nat) : Interface × Bool :=
  if family == AF_INET then i.hostDownv4 else i.hostDownv6

/-- `(*Interface).HostUp`. -/
def Interface.HostUp (i : Interface) (family : Nat) : Interface × Bool :=
  if family == AF_INET then i.hostUpv4 else i.hostUpv6

/-- `(*Interface).Up4`. -/
def Interface.Up4 (i : Interface) : Int := i.upHostsv4

/-- `(*Interface).Up6`. -/
def Interface.Up6 (i : Interface) : Int := i.upHostsv6

/-- `(*Interface).Up`. -/
def Interface.Up (i : Interface) (family : Nat) : Int :=
  if family == AF_INET then i.Up4 else i.Up6

/-- A single prober event, for replaying interleaved call sequences against
the counters. -/
inductive CounterCall where
  | hostUp (family : Nat)
  | hostDown (family : Nat)
deriving DecidableEq, Repr

/-- Replay a sequence of `HostUp`/`HostDown` calls (the callback booleans are
discarded; only the observable counters matter here). -/
def Interface.applyCalls (i : Interface) : List CounterCall → Interface
  | [] => i
  | CounterCall.hostUp f :: rest => ((i.HostUp f).1).applyCalls rest
  | CounterCall.hostDown f :: rest => ((i.HostDown f).1).applyCalls rest

/-- A concrete interface used for the counter counterexamples: one IPv4 host
and two IPv6 hosts, `minimum_up = 1`, both counters as left by `LinkDown`
except that two IPv6 probers have since reported up. -/
def ifaceC1 : Interface :=
  { Name := "eth0", Description := "uplink", Debug := false
    Table := 2, Metric := 1000
    UpAction := "", DownAction := ""
    BurstInterval := 15000000000, BurstSize := 3
    ICMPInterval := 2000000000, ICMPTimeout := 250000000
    MinimumUp := 1
    upHostsv4 := 0, upHostsv6 := 2
    totalHostsv4 := 1, totalHostsv6 := 2
    Hosts := [] }

/-- Fresh counters for the same shape of interface (used for the C2 replay). -/
def ifaceC2 : Interface :=
  { ifaceC1 with upHostsv4 := 0, upHostsv6 := 0, MinimumUp := 2 }

/-! ## Server actions

The controller's side effects (hook execution, gateway promotion/demotion,
rule installation, prober startup) are recorded as an explicit trace. -/

/-- One observable side effect of the failover controller. -/
inductive Action where
  /-- a call to `(*Server).execScript` -/
  | execScript (event : String) (family : Nat)
  /-- a call to `(*Server).deleteGatewaysFor` -/
  | deleteGateways (family : Nat)
  /-- a call to `(*Server).addGatewaysFor` -/
  | addGateways (family : Nat)
  /-- a call to `(*Server).ruleAdd` with `from src/srcLen to dst/dstLen` -/
  | ruleAdd (src : String) (srcLen : Nat) (dst : IP) (dstLen : Nat)
      (table priority family : Nat)
  /-- a call to `(*Server).addICMPMonitor` -/
  | addICMPMonitor (src : String) (host : Host)
  /-- a call to `(*Server).failGatewaysFor` -/
  | failGatewaysFor (family : Nat)
deriving DecidableEq, Repr

/-- `fam` from the server package: family number to environment string. -/
def fam (family : Nat) : String :=
  if family == AF_INET6 then "IPv6"
  else if family == AF_INET then "IPv4"
  else "UNKNOWN"

/-- The single-quote character, written escaped. -/
def sq : String := "\x27"

/-- `ifiToEnv`: the six interface-derived environment entries; the
`DESCRIPTION` value is wrapped in single quotes by the source. -/
def ifiToEnv (ifi : Interface) : List String :=
  ["NAME=" ++ ifi.Name,
   "DESCRIPTION=" ++ sq ++ ifi.Description ++ sq,
   "TABLE=" ++ toString ifi.Table,
   "UP_HOSTS4=" ++ toString ifi.Up4,
   "UP_HOSTS6=" ++ toString ifi.Up6,
   "MINIMUM_UP=" ++ toString ifi.MinimumUp]

/-- The script `execScript` selects: `UpAction`, or `DownAction` when the
event is `"DOWN"`. -/
def scriptFor (event : String) (ifi : Interface) : String :=
  if event == "DOWN" then ifi.DownAction else ifi.UpAction

/-- `(*Server).execScript`: returns `none` when the selected script is empty
(no command is run); otherwise the constructed command line and environment.
The source builds
`exec.CommandContext(ctx, "/run/current-system/sw/bin/env", "sh", "-c",
"'"+script+"'")` — the script is wrapped in single quotes — and sets
`cmd.Env` to exactly `EVENT`, `FAMILY` and the six `ifiToEnv` entries. -/
def execScript (event : String) (family : Nat) (ifi : Interface) :
    Option (List String × List String) :=
  let script := scriptFor event ifi
  if script == "" then none
  else
    some (["/run/current-system/sw/bin/env", "sh", "-c", sq ++ script ++ sq],
          ["EVENT=" ++ event, "FAMILY=" ++ fam family] ++ ifiToEnv ifi)

/-- `(*Server).nextHopFail`: on `linkDown` reset both counters via
`LinkDown`, otherwise decrement via `HostDown`; when `linkDown` or the
counter crossed below minimum, run the down hook and delete the gateway
routes for the family. -/
def nextHopFail (ifi : Interface) (family : Nat) (linkDown : Bool) :
    Interface × List Action :=
  if linkDown then
    (ifi.LinkDown, [Action.execScript "DOWN" family, Action.deleteGateways family])
  else
    let r := ifi.HostDown family
    if r.2 then
      (r.1, [Action.execScript "DOWN" family, Action.deleteGateways family])
    else (r.1, [])

/-- `(*Server).nextHopFailLink`: the down pathway for both families with the
link-down flag set. -/
def nextHopFailLink (ifi : Interface) : Interface × List Action :=
  let r4 := nextHopFail ifi AF_INET true
  let r6 := nextHopFail r4.1 AF_INET6 true
  (r6.1, r4.2 ++ r6.2)

/-- `(*Server).nextHopAvailable`: increment via `HostUp`; when the counter
reached the minimum, run the up hook and promote the gateway routes. -/
def nextHopAvailable (ifi : Interface) (family : Nat) :
    Interface × List Action :=
  let r := ifi.HostUp family
  if r.2 then
    (r.1, [Action.execScript "UP" family, Action.addGateways family])
  else (r.1, [])

/-! ## Link-up path (internal/server/link.go) -/

/-- The `hasipv4`/`hasipv6` detection loop at the top of `(*Server).linkUp`,
including its `continue` flow. -/
def famFlags : List Host → Bool → Bool → Bool × Bool
  | [], h4, h6 => (h4, h6)
  | host :: rest, h4, h6 =>
    if !h4 && host.Family == AF_INET then famFlags rest true h6
    else if !h6 && host.Family == AF_INET6 then famFlags rest h4 true
    else famFlags rest h4 h6

/-- The body run when `findLocalAddressv6` returns a non-empty source on the
v6 timer: the source gates the whole installation block on `hasipv4` (sic);
inside, for every IPv6 host a policy rule (when `Table != 0`) and an ICMP
monitor, then `failGatewaysFor(ifi, AF_INET6)`. -/
def linkUpV6Found (ifi : Interface) (src : String) : List Action :=
  let flags := famFlags ifi.Hosts false false
  let hasipv4 := flags.1
  if hasipv4 then
    (ifi.Hosts.flatMap fun host =>
      if host.Family == AF_INET6 then
        (if ifi.Table != 0 then
           [Action.ruleAdd src 128 host.Host 128 ifi.Table 1 AF_INET6]
         else [])
          ++ [Action.addICMPMonitor src host]
      else [])
      ++ [Action.failGatewaysFor AF_INET6]
  else []

/-- The body run when `findLocalAddressv4` returns a non-empty source on the
v4 timer, gated on `hasipv4`, with 32-bit prefixes and `AF_INET`. -/
def linkUpV4Found (ifi : Interface) (src : String) : List Action :=
  let flags := famFlags ifi.Hosts false false
  let hasipv4 := flags.1
  if hasipv4 then
    (ifi.Hosts.flatMap fun host =>
      if host.Family == AF_INET then
        (if ifi.Table != 0 then
           [Action.ruleAdd src 32 host.Host 32 ifi.Table 1 AF_INET]
         else [])
          ++ [Action.addICMPMonitor src host]
      else [])
      ++ [Action.failGatewaysFor AF_INET]
  else []

/-! ## Source-address discovery backoff (internal/server/link.go)

`backoff4` starts as `time.Duration(1)` — one nanosecond — and the ticker is
reset to `backoff4 * time.Second`, i.e. `backoff4`'s raw nanosecond count
taken as a number of seconds.  The doubling guard is
`backoff4.Seconds() < 32` (`< 30` on the v6 timer); on the power-of-two
values reached this float comparison coincides exactly with comparing the
nanosecond count against `32·10⁹` (resp. `30·10⁹`). -/

/-- One doubling step of `backoff4` (value in nanoseconds). -/
def backoffStep4 (b : Nat) : Nat := if b < 32 * 1000000000 then 2 * b else b

/-- One doubling step of `backoff6` (value in nanoseconds). -/
def backoffStep6 (b : Nat) : Nat := if b < 30 * 1000000000 then 2 * b else b

/-- `backoff4` after `n` unsuccessful v4 discovery attempts
(`backoff4 := time.Duration(1)` initially, then one step per tick). -/
def backoff4After : Nat → Nat
  | 0 => 1
  | n + 1 => backoffStep4 (backoff4After n)

/-- The ticker interval in nanoseconds: `timer4.Reset(backoff4 * time.Second)`
multiplies the raw `backoff4` value by `10⁹`. -/
def tickerIntervalNs (b : Nat) : Nat := b * 1000000000

/-! ## ICMP verdict (internal/icmp/icmp.go) -/

/-- The prober's verdict. -/
inductive Verdict where
  | up
  | down
deriving DecidableEq, Repr

/-- `Statistics.PacketLoss` as computed by the pro-bing library:
`float64(sent-recv) / float64(sent) * 100`, modelled exactly over `ℚ`
(for burst sizes `1..5` the float64 comparison against 75 coincides with the
exact rational comparison, the only tie `3/4·100 = 75` being exactly
representable). -/
def packetLoss (sent recv : Nat) : ℚ :=
  ((sent : ℚ) - (recv : ℚ)) / (sent : ℚ) * 100

/-- The verdict delivery at the end of `(*Monitor).run`: skipped entirely
when the context was cancelled; otherwise exactly one callback fires —
`downFunc` iff `stats.PacketLoss > 75`, else `upFunc`. -/
def runVerdict (cancelled : Bool) (sent recv : Nat) : Option Verdict :=
  if cancelled then none
  else if packetLoss sent recv > 75 then some Verdict.down
  else some Verdict.up

/-! ## Route metric rewrite (package routesync)

The repository carries two versions of `ChangeMetric`.  Both are modelled as
the sequence of kernel route-table states they traverse, the kernel table
being a list of routes, `Route.Add` appending and `Route.Delete` erasing one
matching entry. -/

/-- The route fields `ChangeMetric` touches. -/
structure Route where
  dst : IP
  priority : Nat
  flags : Nat
deriving DecidableEq, Repr

/-- `conn.Route.Add`. -/
def routeAdd (tbl : List Route) (r : Route) : List Route := tbl ++ [r]

/-- `conn.Route.Delete`: removes one matching route. -/
def routeDelete (tbl : List Route) (r : Route) : List Route := tbl.erase r

/-- Does the table hold any route for destination `d`? -/
def hasRouteTo (tbl : List Route) (d : IP) : Bool := tbl.any fun r => r.dst == d

/-- Kernel states traversed by `ChangeMetric` from
src/internal/routesync/metric.go: zero `Flags`, **delete** the route (still
at its original priority), then set `Priority := metric` and **add**. -/
def ChangeMetricStates (tbl : List Route) (msg : Route) (metric : Nat) :
    List (List Route) :=
  let m0 : Route := { msg with flags := 0 }
  let s1 := routeDelete tbl m0
  let s2 := routeAdd s1 { m0 with priority := metric }
  [tbl, s1, s2]

/-- Kernel states traversed by the other `ChangeMetric` (unnamed routesync
file): save `orgMetrc`, zero `Flags`, **add** at the new metric first, then
restore the priority and **delete** the original. -/
def ChangeMetricStatesUnnamed (tbl : List Route) (msg : Route) (metric : Nat) :
    List (List Route) :=
  let orgMetrc := msg.priority
  let m0 : Route := { msg with flags := 0 }
  let s1 := routeAdd tbl { m0 with priority := metric }
  let s2 := routeDelete s1 { m0 with priority := orgMetrc }
  [tbl, s1, s2]

/-! ## Policy-rule construction (internal/server/server.go) -/

/-- A `*net.IPNet`: address plus mask size (`Mask.Size()` ones count). -/
structure IPNet where
  ip : IP
  maskOnes : Nat
deriving DecidableEq, Repr

/-- The `rtnetlink.RuleMessage` fields `ruleAdd` populates. -/
structure RuleMessage where
  Family : Nat
  SrcLength : Nat
  DstLength : Nat
  Action : Nat
  Src : IP
  Dst : IP
  Table : Nat
  Priority : Nat
deriving DecidableEq, Repr

/-- `(*Server).ruleAdd`: a nil `from` is rejected before any netlink message
is built or sent; otherwise the message is built with the caller's `family`
and then overwritten to `AF_INET6` whenever `from.IP.To4() == nil`.
(The Go `to` parameter is dereferenced unconditionally, so it is modelled
non-optional; the `uint8` casts of the mask sizes are `% 256`.)
A returned `Except.error` means `nlconn.Rule.Add` is never called. -/
def ruleAdd (fromN : Option IPNet) (toN : IPNet) (table priority : Nat)
    (family : Nat) : Except String RuleMessage :=
  match fromN with
  | none => Except.error "ipRuleDo: from ip is nil"
  | some f =>
    let srcSize := f.maskOnes
    let dstSize := toN.maskOnes
    let msg : RuleMessage :=
      { Family := family, SrcLength := srcSize % 256, DstLength := dstSize % 256,
        Action := FR_ACT_TO_TBL, Src := f.ip, Dst := toN.ip,
        Table := table, Priority := priority }
    let msg := if f.ip.v4 == false then { msg with Family := AF_INET6 } else msg
    Except.ok msg

/-! ## Configuration parsing (internal/config)

The TOML decoding step is external (go-toml); the embedding starts from the
decoded `cfgFile` structure.  `time.ParseDuration` (standard library) is
abstracted: duration options carry an already-parsed nanosecond count, so the
modelled `parseDuration` cannot fail; every validation check of the
repository itself is kept. -/

def DEF_MINIMUMUP : Int := 1
def BURSTSIZE_MIN : Int := 1
def BURSTSIZE_MAX : Int := 5
def TABLE_MAX : Int := 4294967295
def DEF_BURSTSIZE : Int := 3
def DEF_BURSTINTERVAL : Int := 15 * 1000000000
def DEF_ICMPINTERVAL : Int := 2 * 1000000000
def DEF_ICMPTIMEOUT : Int := 250 * 1000000

/-- `cfgHost` (decoded TOML host block); `Host` is the already-parsed
address. -/
structure CfgHost where
  Name : String
  Host : IP
  Debug : Bool
  BurstInterval : Option Int
  BurstSize : Option Int
  ICMPInterval : Option Int
  ICMPTimeout : Option Int
deriving DecidableEq, Repr

/-- `cfgInterface` (decoded TOML interface block). -/
structure CfgInterface where
  Name : String
  Description : String
  Debug : Bool
  Table : Option Int
  Metric : Option Int
  UpAction : Option String
  DownAction : Option String
  BurstInterval : Option Int
  BurstSize : Option Int
  ICMPInterval : Option Int
  ICMPTimeout : Option Int
  MinimumUp : Option Int
  Hosts : List CfgHost
deriving DecidableEq, Repr

/-- `cfgFile` (decoded TOML top level). -/
structure CfgFile where
  Debug : Bool
  BurstInterval : Option Int
  BurstSize : Option Int
  ICMPInterval : Option Int
  ICMPTimeout : Option Int
  UpAction : String
  DownAction : String
  Interfaces : List CfgInterface
deriving DecidableEq, Repr

/-- `config.Config`. -/
structure Config where
  Debug : Bool
  BurstInterval : Int
  BurstSize : Int
  ICMPInterval : Int
  ICMPTimeout : Int
  UpAction : String
  DownAction : String
  Interfaces : List Interface
deriving DecidableEq, Repr

/-- `parseDuration`: an unset option yields the default; a set option yields
its (already parsed) value. -/
def parseDuration (s : Option Int) (deflt : Int) : Int := s.getD deflt

/-- The `burst_size` validation block, shared verbatim by `Parse`,
`parseInterface` and `parseHost`: an unset option inherits the parent value,
a set one must lie within `[BURSTSIZE_MIN, BURSTSIZE_MAX]`. -/
def checkBurstSize (b : Option Int) (parentB : Int) : Except String Int :=
  match b with
  | none => Except.ok parentB
  | some v =>
    if v < BURSTSIZE_MIN ∨ v > BURSTSIZE_MAX then
      Except.error "burst_size is incorrect"
    else Except.ok v

/-- The `table` validation block of `parseInterface`: range `[1, TABLE_MAX]`
and not one of the reserved tables `RT_TABLE_LOCAL`/`RT_TABLE_MAIN`. -/
def checkTable (t : Option Int) : Except String Nat :=
  match t with
  | none => Except.ok 0
  | some v =>
    if v < 1 ∨ v > TABLE_MAX then Except.error "table is incorrect"
    else if v = (RT_TABLE_LOCAL : Int) ∨ v = (RT_TABLE_MAIN : Int) then
      Except.error "table is invalid: reserved table"
    else Except.ok v.toNat

/-- The `metric` validation block of `parseInterface`: range `[1, 32764]`,
and the interface table must already be non-zero. -/
def checkMetric (m : Option Int) (table : Nat) : Except String Nat :=
  match m with
  | none => Except.ok 0
  | some v =>
    if v < 1 ∨ v > 32764 then Except.error "metric is incorrect"
    else if table = 0 then
      Except.error "table is incorrect: must be set to non-zero for metric to work"
    else Except.ok v.toNat

/-- The `minimum_up` validation block of `parseInterface`: within
`[1, len(hosts)]`, defaulting to `DEF_MINIMUMUP`. -/
def checkMinimumUp (mu : Option Int) (numHosts : Nat) : Except String Int :=
  match mu with
  | none => Except.ok DEF_MINIMUMUP
  | some v =>
    if v > (numHosts : Int) ∨ v < 1 then Except.error "minimum_up is incorrect"
    else Except.ok v

/-- `parseHost`: family is `AF_INET` unless `To4()` is nil, burst size is
validated against the interface defaults, durations inherit. -/
def parseHost (cfg : CfgHost) (parent : Interface) : Except String Host :=
  let ip := cfg.Host
  let name := if cfg.Name != "" then cfg.Name else ip.str
  let family := if ip.v4 then AF_INET else AF_INET6
  match checkBurstSize cfg.BurstSize parent.BurstSize with
  | Except.error e => Except.error e
  | Except.ok bs =>
    Except.ok
      { Name := name, Host := ip, Debug := cfg.Debug, Family := family,
        BurstInterval := parseDuration cfg.BurstInterval parent.BurstInterval,
        BurstSize := bs,
        ICMPInterval := parseDuration cfg.ICMPInterval parent.ICMPInterval,
        ICMPTimeout := parseDuration cfg.ICMPTimeout parent.ICMPTimeout }

/-- The host loop at the end of `parseInterface`: parse each host, reject a
`host.Host.String()` already seen for this interface, append it and bump the
per-family total counter. -/
def parseIfaceHosts (ifi : Interface) :
    List CfgHost → List String → Except String Interface
  | [], _ => Except.ok ifi
  | ch :: rest, seen =>
    match parseHost ch ifi with
    | Except.error e => Except.error ("host: " ++ e)
    | Except.ok host =>
      if host.Host.str ∈ seen then
        Except.error "host cannot appear multiple times for interface"
      else
        parseIfaceHosts
          { ifi with
            Hosts := ifi.Hosts ++ [host],
            totalHostsv4 :=
              ifi.totalHostsv4 + (if host.Family == AF_INET then 1 else 0),
            totalHostsv6 :=
              ifi.totalHostsv6 + (if host.Family == AF_INET6 then 1 else 0) }
          rest (host.Host.str :: seen)

/-- `parseInterface`: the validation blocks in source order (table, metric,
minimum_up, burst_size, durations, action overrides), then the host loop. -/
def parseInterface (cfg : CfgInterface) (parent : Config) :
    Except String Interface :=
  match checkTable cfg.Table with
  | Except.error e => Except.error e
  | Except.ok table =>
  match checkMetric cfg.Metric table with
  | Except.error e => Except.error e
  | Except.ok metric =>
  match checkMinimumUp cfg.MinimumUp cfg.Hosts.length with
  | Except.error e => Except.error e
  | Except.ok minimumUp =>
  match checkBurstSize cfg.BurstSize parent.BurstSize with
  | Except.error e => Except.error e
  | Except.ok burstSize =>
    parseIfaceHosts
      { Name := cfg.Name, Description := cfg.Description, Debug := cfg.Debug,
        Table := table, Metric := metric,
        UpAction := cfg.UpAction.getD parent.UpAction,
        DownAction := cfg.DownAction.getD parent.DownAction,
        BurstInterval := parseDuration cfg.BurstInterval parent.BurstInterval,
        BurstSize := burstSize,
        ICMPInterval := parseDuration cfg.ICMPInterval parent.ICMPInterval,
        ICMPTimeout := parseDuration cfg.ICMPTimeout parent.ICMPTimeout,
        MinimumUp := minimumUp,
        upHostsv4 := 0, upHostsv6 := 0, totalHostsv4 := 0, totalHostsv6 := 0,
        Hosts := [] }
      cfg.Hosts []

/-- The interface loop of `Parse`: parse each interface, then reject a name
already seen (`seen` map), in source order. -/
def parseInterfaces (parent : Config) :
    List CfgInterface → List String → Except String (List Interface)
  | [], _ => Except.ok []
  | c :: rest, seen =>
    match parseInterface c parent with
    | Except.error e => Except.error ("interface: " ++ e)
    | Except.ok ifi =>
      if ifi.Name ∈ seen then
        Except.error "interface cannot appear multiple times in configuration"
      else
        match parseInterfaces parent rest (ifi.Name :: seen) with
        | Except.error e => Except.error e
        | Except.ok others => Except.ok (ifi :: others)

/-- `config.Parse` (after TOML decoding): at least one interface, global
burst-size and duration handling, then the interface loop. -/
def Parse (cfg : CfgFile) : Except String Config :=
  if cfg.Interfaces.length = 0 then Except.error "no interfaces configured"
  else
    match checkBurstSize cfg.BurstSize DEF_BURSTSIZE with
    | Except.error e => Except.error e
    | Except.ok bs =>
      let c0 : Config :=
        { Debug := cfg.Debug,
          BurstInterval := parseDuration cfg.BurstInterval DEF_BURSTINTERVAL,
          BurstSize := bs,
          ICMPInterval := parseDuration cfg.ICMPInterval DEF_ICMPINTERVAL,
          ICMPTimeout := parseDuration cfg.ICMPTimeout DEF_ICMPTIMEOUT,
          UpAction := cfg.UpAction, DownAction := cfg.DownAction,
          Interfaces := [] }
      match parseInterfaces c0 cfg.Interfaces [] with
      | Except.error e => Except.error e
      | Except.ok ifis => Except.ok { c0 with Interfaces := ifis }

/-- The per-interface validity conditions the specification says `Parse`
enforces (stated over the raw decoded configuration). -/
def ValidIface (i : CfgInterface) : Prop :=
  ((i.Hosts.map fun ch => ch.Host.str).Nodup)
  ∧ (∀ t, i.Table = some t → t ≠ (RT_TABLE_LOCAL : Int) ∧ t ≠ (RT_TABLE_MAIN : Int))
  ∧ (∀ b, i.BurstSize = some b → 1 ≤ b ∧ b ≤ 5)
  ∧ (∀ mu, i.MinimumUp = some mu → 1 ≤ mu ∧ mu ≤ (i.Hosts.length : Int))
  ∧ (i.Metric.isSome → i.Table.isSome)
  ∧ (∀ ch ∈ i.Hosts, ∀ b, ch.BurstSize = some b → 1 ≤ b ∧ b ≤ 5)

/-! ## Concrete fixtures used by the theorems -/

/-- An IPv6 probe host. -/
def hostV6 : Host :=
  { Name := "dns6", Host := { v4 := false, str := "2001:db8::53" },
    Debug := false, Family := AF_INET6,
    BurstInterval := 15000000000, BurstSize := 3,
    ICMPInterval := 2000000000, ICMPTimeout := 250000000 }

/-- An IPv4 probe host. -/
def hostV4 : Host :=
  { Name := "dns4", Host := { v4 := true, str := "192.0.2.53" },
    Debug := false, Family := AF_INET,
    BurstInterval := 15000000000, BurstSize := 3,
    ICMPInterval := 2000000000, ICMPTimeout := 250000000 }

/-- An interface whose host list holds exactly one IPv6 host. -/
def ifaceV6only : Interface :=
  { ifaceC1 with
    Table := 5
    Hosts := [hostV6]
    upHostsv6 := 0
    totalHostsv4 := 0
    totalHostsv6 := 1 }

/-- The same interface with an IPv4 host added in front. -/
def ifaceDual : Interface :=
  { ifaceV6only with Hosts := [hostV4, hostV6], totalHostsv4 := 1 }

/-- An interface with hook scripts configured. -/
def ifaceHook : Interface :=
  { ifaceC1 with
    Name := "wan0"
    Description := "main uplink"
    UpAction := "echo hi"
    DownAction := "logger down"
    upHostsv4 := 1
    upHostsv6 := 0 }

/-- A concrete gateway destination. -/
def demoIP : IP := { v4 := true, str := "198.51.100.1" }

/-- A concrete route at priority 5 for `demoIP`. -/
def demoRoute : Route := { dst := demoIP, priority := 5, flags := 0 }

/-- A concrete IPv6 `*net.IPNet` (`2001:db8::1/128`). -/
def ipn6 : IPNet := { ip := { v4 := false, str := "2001:db8::1" }, maskOnes := 128 }

/-- A concrete IPv4 `*net.IPNet` (`1.1.1.1/32`). -/
def ipn4 : IPNet := { ip := { v4 := true, str := "1.1.1.1" }, maskOnes := 32 }

/-- A decoded host block that validates. -/
def cfgHostW : CfgHost :=
  { Name := "dns", Host := { v4 := true, str := "1.1.1.1" }, Debug := false,
    BurstInterval := none, BurstSize := some 3,
    ICMPInterval := none, ICMPTimeout := none }

/-- A decoded interface block that validates. -/
def cfgIfaceW : CfgInterface :=
  { Name := "eth0", Description := "uplink", Debug := false,
    Table := some 2, Metric := some 1000,
    UpAction := none, DownAction := none,
    BurstInterval := none, BurstSize := none,
    ICMPInterval := none, ICMPTimeout := none,
    MinimumUp := some 1, Hosts := [cfgHostW] }

/-- A decoded configuration that `Parse` accepts. -/
def cfgW : CfgFile :=
  { Debug := false, BurstInterval := none, BurstSize := none,
    ICMPInterval := none, ICMPTimeout := none,
    UpAction := "", DownAction := "", Interfaces := [cfgIfaceW] }

end Hodos

namespace Hodos

/-- C1: `HostUp` increments `up_hosts[F]` clamped at `total_hosts[F]` and
fires Family-Up exactly when the new value equals `minimum_up`; `HostDown`
decrements `up_hosts[F]` clamped at 0 and fires Family-Down exactly when the
new value equals `minimum_up - 1`.  The claim fails on the source: in
`hostDownv4` the under-zero branch stores 0 into `upHostsv6` instead of
clamping `upHostsv4`.  Evaluating `HostDown AF_INET` on an interface with
`up_hosts[v4] = 0` and `up_hosts[v6] = 2` leaves `up_hosts[v4] = -1`
(unclamped) and wipes `up_hosts[v6]` to 0, and no Family-Down fires. -/
theorem hostDownv4_wrong_family_clamp :
    ((ifaceC1.HostDown AF_INET).1.upHostsv4 = -1
      ∧ (ifaceC1.HostDown AF_INET).1.upHostsv6 = 0)
      ∧ (ifaceC1.HostDown AF_INET).2 = false := by
  decide

/-- C2: for interleaved `HostUp`/`HostDown` sequences the counters are claimed
to stay within `0 ≤ up_hosts[F] ≤ total_hosts[F]`, decrements below 0 being
clamped back on the same family's counter.  Counterexample on the source:
replaying `[hostUp v6, hostUp v6, hostDown v4]` from the all-zero state drives
`up_hosts[v4]` to `-1` (the v4 under-zero clamp writes to the v6 counter
instead), so the invariant `0 ≤ up_hosts[v4]` is violated at an observable
point, and the v6 counter is wiped from 2 to 0. -/
theorem counters_leak_below_zero :
    (ifaceC2.applyCalls
        [CounterCall.hostUp AF_INET6, CounterCall.hostUp AF_INET6,
         CounterCall.hostDown AF_INET]).upHostsv4 = -1
      ∧ (ifaceC2.applyCalls
        [CounterCall.hostUp AF_INET6, CounterCall.hostUp AF_INET6,
         CounterCall.hostDown AF_INET]).upHostsv6 = 0 := by
  decide

/-- C3: the claim says that once an IPv6 source address is found, rules,
probers and the v6 down pathway are installed for every IPv6 host, gated on
the presence of IPv6 hosts.  The source gates the whole block on `hasipv4`:
on an interface whose host list holds exactly one IPv6 host (and no IPv4
host) nothing at all is installed, while adding an unrelated IPv4 host makes
the very same v6 block run. -/
theorem linkUpV6_gated_on_hasipv4 :
    linkUpV6Found ifaceV6only "2001:db8::1" = []
    ∧ linkUpV6Found ifaceDual "2001:db8::1" =
        [Action.ruleAdd "2001:db8::1" 128 hostV6.Host 128 5 1 AF_INET6,
         Action.addICMPMonitor "2001:db8::1" hostV6,
         Action.failGatewaysFor AF_INET6] := by
  decide

/-- C4: the backoff between discovery attempts is claimed to double from 1 s
and be capped at 32 s.  In the source `backoff4` starts at
`time.Duration(1)` (one nanosecond) and the ticker interval is
`backoff4 * time.Second`; the cap test `backoff4.Seconds() < 32` compares the
nanosecond count scaled by `10⁻⁹`, so it keeps doubling: after the 6th
unsuccessful attempt the wait is already 64 s > 32 s. -/
theorem backoff_interval_exceeds_cap :
    tickerIntervalNs (backoff4After 6) = 64 * 1000000000
    ∧ 32 * 1000000000 < tickerIntervalNs (backoff4After 6) := by
  decide

/-- C6: `nextHopFailLink` resets both counters to 0 (via `LinkDown`) and,
for any starting counter values, runs the down hook and the gateway demotion
for IPv4 and then IPv6 unconditionally. -/
theorem linkDown_resets_and_fails_both_families (ifi : Interface) :
    (nextHopFailLink ifi).1.upHostsv4 = 0
    ∧ (nextHopFailLink ifi).1.upHostsv6 = 0
    ∧ (nextHopFailLink ifi).2 =
        [Action.execScript "DOWN" AF_INET, Action.deleteGateways AF_INET,
         Action.execScript "DOWN" AF_INET6, Action.deleteGateways AF_INET6] := by
  simp [nextHopFailLink, nextHopFail, Interface.LinkDown]

/-- Witness for C6: the reset and unconditional double down pathway at a
concrete interface whose counters are non-zero. -/
theorem linkDown_resets_and_fails_both_families_witness :
    (nextHopFailLink ifaceC1).1.upHostsv4 = 0
    ∧ (nextHopFailLink ifaceC1).1.upHostsv6 = 0
    ∧ (nextHopFailLink ifaceC1).2 =
        [Action.execScript "DOWN" AF_INET, Action.deleteGateways AF_INET,
         Action.execScript "DOWN" AF_INET6, Action.deleteGateways AF_INET6] :=
  linkDown_resets_and_fails_both_families ifaceC1

/-- C10: `ruleAdd` with a nil `from` network returns an error and never
builds (or sends) a rule message; for a non-nil `from` whose address is not
IPv4 the message family is `AF_INET6` no matter which `family` the caller
passed. -/
theorem ruleAdd_nilFrom_and_v6Family :
    (∀ (toN : IPNet) (table priority family : Nat) (msg : RuleMessage),
        ruleAdd none toN table priority family ≠ Except.ok msg)
    ∧ (∀ (fromN toN : IPNet) (table priority family : Nat),
        fromN.ip.v4 = false →
          (ruleAdd (some fromN) toN table priority family).map
              (fun m => m.Family) = Except.ok AF_INET6) := by
  constructor
  · intro toN t p f msg
    simp [ruleAdd]
  · intro fromN toN t p f h
    simp [ruleAdd, h, Except.map]

/-- Witness for C10: a concrete IPv6 source network passed with the caller
family `AF_INET` still yields an `AF_INET6` rule message. -/
theorem ruleAdd_nilFrom_and_v6Family_witness :
    ipn6.ip.v4 = false
    ∧ (ruleAdd (some ipn6) ipn4 2 1 AF_INET).map
        (fun m => m.Family) = Except.ok AF_INET6 :=
  ⟨rfl, ruleAdd_nilFrom_and_v6Family.2 ipn6 ipn4 2 1 AF_INET rfl⟩

/-- C5: after a completed (non-cancelled) burst exactly one verdict is
delivered, down exactly when packet loss exceeds 75 % — in integer terms
`100·(sent−recv) > 75·sent` — and in particular 1 of 3 received yields up
while 0 of 3 received yields down. -/
theorem icmp_verdict_threshold :
    (∀ sent recv : Nat, 0 < sent → recv ≤ sent →
        (runVerdict false sent recv = some Verdict.down ↔
          100 * (sent - recv) > 75 * sent))
    ∧ runVerdict false 3 1 = some Verdict.up
    ∧ runVerdict false 3 0 = some Verdict.down := by
  refine ⟨?_, ?_, ?_⟩
  case refine_2 =>
    have hup : ¬ packetLoss 3 1 > 75 := by
      unfold packetLoss
      norm_num
    simp [runVerdict, hup]
  case refine_3 =>
    have hdown : packetLoss 3 0 > 75 := by
      unfold packetLoss
      norm_num
    simp [runVerdict, hdown]
  intro sent recv hs hr
  have hs' : (0 : ℚ) < (sent : ℚ) := by exact_mod_cast hs
  have hloss : packetLoss sent recv > 75 ↔ 100 * (sent - recv) > 75 * sent := by
    unfold packetLoss
    rw [← Nat.cast_sub hr, gt_iff_lt, div_mul_eq_mul_div, lt_div_iff₀ hs']
    rw [mul_comm ((sent - recv : Nat) : ℚ) 100]
    constructor
    · intro h
      exact_mod_cast h
    · intro h
      exact_mod_cast h
  unfold runVerdict
  by_cases h : packetLoss sent recv > 75
  · simp only [if_neg (by simp : ¬ (false = true)), if_pos h]
    simpa using hloss.mp h
  · simp only [if_neg (by simp : ¬ (false = true)), if_neg h]
    constructor
    · intro hup
      exact absurd hup (by simp)
    · intro hgt
      exact absurd (hloss.mpr hgt) h

/-- Witness for C5: the generic threshold equivalence applied at the
concrete burst 3 sent / 1 received. -/
theorem icmp_verdict_threshold_witness :
    (0 < 3 ∧ 1 ≤ 3)
    ∧ (runVerdict false 3 1 = some Verdict.down ↔ 100 * (3 - 1) > 75 * 3) :=
  ⟨⟨by decide, by decide⟩, icmp_verdict_threshold.1 3 1 (by decide) (by decide)⟩

/-- Helper: erasing one route from `tbl ++ [r]` cannot remove every route to
`d` when `tbl` already held one and `r.dst = d`. -/
theorem hasRouteTo_erase_snoc (d : IP) (r x : Route) (hr : r.dst = d) :
    ∀ tbl : List Route, hasRouteTo tbl d = true →
      hasRouteTo ((tbl ++ [r]).erase x) d = true := by
  intro tbl
  induction tbl with
  | nil => intro h; simp [hasRouteTo] at h
  | cons a t ih =>
    intro h
    rw [List.cons_append, List.erase_cons]
    by_cases hax : a == x
    · simp only [hax, if_pos rfl]
      simp [hasRouteTo, List.any_append, hr]
    · rw [if_neg (by simpa using hax)]
      have h' : (a.dst == d) = true ∨ hasRouteTo t d = true := by
        simpa [hasRouteTo, List.any_cons, Bool.or_eq_true] using h
      rcases h' with h1 | h2
      · simp [hasRouteTo, List.any_cons, h1]
      · have := ih h2
        simp only [hasRouteTo, List.any_cons, Bool.or_eq_true]
        right
        simpa [hasRouteTo] using this

/-- C7 counterexample: the `ChangeMetric` of
src/internal/routesync/metric.go deletes the old-metric route *first*; from
a table holding exactly the affected route, the intermediate kernel state is
empty — the destination is left without any route, contradicting the claim's
add-then-delete ordering. -/
theorem ChangeMetric_leaves_gap :
    ChangeMetricStates [demoRoute] demoRoute 10 =
      [[demoRoute], [], [{ demoRoute with priority := 10 }]]
    ∧ hasRouteTo [] demoIP = false := by
  decide

/-- C7 (amended): the `ChangeMetric` of the unnamed routesync source file
adds the copy at the new metric before deleting the old one, so whenever the
table holds a route for the destination initially, every intermediate kernel
state still holds one. -/
theorem ChangeMetricUnnamed_preserves_route (tbl : List Route) (msg : Route)
    (metric : Nat) (h : hasRouteTo tbl msg.dst = true) :
    ∀ s ∈ ChangeMetricStatesUnnamed tbl msg metric,
      hasRouteTo s msg.dst = true := by
  intro s hs
  simp only [ChangeMetricStatesUnnamed, routeAdd, routeDelete,
    List.mem_cons, List.not_mem_nil, or_false] at hs
  rcases hs with rfl | rfl | rfl
  · exact h
  · simp [hasRouteTo, List.any_append]
  · exact hasRouteTo_erase_snoc msg.dst
      { dst := msg.dst, priority := metric, flags := 0 }
      { dst := msg.dst, priority := msg.priority, flags := 0 } rfl tbl h

/-- Witness for the amended C7 theorem at a concrete one-route table. -/
theorem ChangeMetricUnnamed_preserves_route_witness :
    hasRouteTo [demoRoute] demoRoute.dst = true
    ∧ ∀ s ∈ ChangeMetricStatesUnnamed [demoRoute] demoRoute 10,
        hasRouteTo s demoRoute.dst = true :=
  ⟨by decide, ChangeMetricUnnamed_preserves_route [demoRoute] demoRoute 10 (by decide)⟩

/-- C8 counterexample: on a concrete interface whose up hook is `echo hi`,
`execScript` builds the command
`/run/current-system/sw/bin/env sh -c 'echo hi'` — the shell is not
`/bin/sh` and the script text is altered by the added single quotes. -/
theorem execScript_not_binsh :
    execScript "UP" AF_INET ifaceHook =
      some (["/run/current-system/sw/bin/env", "sh", "-c", "\x27echo hi\x27"],
            ["EVENT=UP", "FAMILY=IPv4", "NAME=wan0",
             "DESCRIPTION=\x27main uplink\x27", "TABLE=2",
             "UP_HOSTS4=1", "UP_HOSTS6=0", "MINIMUM_UP=1"])
    ∧ ("\x27echo hi\x27" : String) ≠ "echo hi"
    ∧ (["/run/current-system/sw/bin/env", "sh", "-c", "\x27echo hi\x27"]
        : List String) ≠ ["/bin/sh", "-c", "echo hi"] := by
  refine ⟨?_, by decide, by decide⟩
  decide

/-- C8 (amended): whenever the selected hook script is non-empty,
`execScript` runs `/run/current-system/sw/bin/env sh -c` on the script
wrapped in single quotes (so the text handed to the shell always differs
from the configured script), with an environment consisting exactly of
`EVENT`, `FAMILY`, `NAME`, `DESCRIPTION` (single-quoted value), `TABLE`,
`UP_HOSTS4`, `UP_HOSTS6` and `MINIMUM_UP`. -/
theorem execScript_shell_and_env (event : String) (family : Nat)
    (ifi : Interface) (h : scriptFor event ifi ≠ "") :
    execScript event family ifi =
      some (["/run/current-system/sw/bin/env", "sh", "-c",
             sq ++ scriptFor event ifi ++ sq],
            ["EVENT=" ++ event, "FAMILY=" ++ fam family] ++ ifiToEnv ifi)
    ∧ sq ++ scriptFor event ifi ++ sq ≠ scriptFor event ifi := by
  constructor
  · simp [execScript, h]
  · intro hEq
    have hlen := congrArg String.length hEq
    rw [String.length_append, String.length_append] at hlen
    have hsq : sq.length = 1 := rfl
    omega

/-- Helper: a successful `checkBurstSize` bounds any explicitly given value. -/
theorem checkBurstSize_ok {b : Option Int} {p r : Int}
    (h : checkBurstSize b p = Except.ok r) :
    ∀ v, b = some v → 1 ≤ v ∧ v ≤ 5 := by
  intro v hv
  subst hv
  by_cases hc : v < BURSTSIZE_MIN ∨ v > BURSTSIZE_MAX
  · simp [checkBurstSize, hc] at h
  · push_neg at hc
    simp only [BURSTSIZE_MIN, BURSTSIZE_MAX] at hc
    omega

/-- Helper: a successful `checkTable` rejects the reserved tables, maps an
absent option to table 0 and a present one to a non-zero table. -/
theorem checkTable_ok {t : Option Int} {tbl : Nat}
    (h : checkTable t = Except.ok tbl) :
    (∀ v, t = some v → v ≠ (RT_TABLE_LOCAL : Int) ∧ v ≠ (RT_TABLE_MAIN : Int))
    ∧ (t = none → tbl = 0)
    ∧ (∀ v, t = some v → tbl ≠ 0) := by
  refine ⟨?_, ?_, ?_⟩
  · intro v hv
    subst hv
    simp only [checkTable] at h
    split at h
    · simp at h
    · split at h
      · simp at h
      · rename_i h1 h2
        push_neg at h2
        exact h2
  · intro hv
    subst hv
    simp only [checkTable, Except.ok.injEq] at h
    omega
  · intro v hv
    subst hv
    simp only [checkTable] at h
    split at h
    · simp at h
    · split at h
      · simp at h
      · rename_i h1 h2
        push_neg at h1
        simp only [Except.ok.injEq] at h
        omega

/-- Helper: a successful `checkMetric` with an explicit metric needs a
non-zero table. -/
theorem checkMetric_ok {m : Option Int} {table r : Nat}
    (h : checkMetric m table = Except.ok r) :
    ∀ v, m = some v → table ≠ 0 := by
  intro v hv
  subst hv
  simp only [checkMetric] at h
  split at h
  · simp at h
  · split at h
    · simp at h
    · rename_i h1 h2
      exact h2

/-- Helper: a successful `checkMinimumUp` bounds any explicitly given value
by `[1, numHosts]`. -/
theorem checkMinimumUp_ok {mu : Option Int} {n : Nat} {r : Int}
    (h : checkMinimumUp mu n = Except.ok r) :
    ∀ v, mu = some v → 1 ≤ v ∧ v ≤ (n : Int) := by
  intro v hv
  subst hv
  simp only [checkMinimumUp] at h
  split at h
  · simp at h
  · rename_i hc
    push_neg at hc
    omega

/-- Helper: a successful `parseHost` keeps the host address and has validated
any explicit burst size. -/
theorem parseHost_ok {ch : CfgHost} {parent : Interface} {host : Host}
    (h : parseHost ch parent = Except.ok host) :
    host.Host = ch.Host
    ∧ ∀ v, ch.BurstSize = some v → 1 ≤ v ∧ v ≤ 5 := by
  simp only [parseHost] at h
  split at h
  · simp at h
  · rename_i bs hbs
    refine ⟨?_, checkBurstSize_ok hbs⟩
    simp only [Except.ok.injEq] at h
    subst h
    rfl

/-- Helper: a successful host loop keeps the interface name, implies the
host addresses are pairwise distinct and disjoint from `seen`, and has
validated every per-host burst size. -/
theorem parseIfaceHosts_ok :
    ∀ (chs : List CfgHost) (ifi : Interface) (seen : List String)
      (ifi2 : Interface),
      parseIfaceHosts ifi chs seen = Except.ok ifi2 →
      ifi2.Name = ifi.Name
      ∧ (chs.map fun ch => ch.Host.str).Nodup
      ∧ (∀ s ∈ chs.map fun ch => ch.Host.str, s ∉ seen)
      ∧ ∀ ch ∈ chs, ∀ v, ch.BurstSize = some v → 1 ≤ v ∧ v ≤ 5 := by
  intro chs
  induction chs with
  | nil =>
    intro ifi seen ifi2 h
    simp only [parseIfaceHosts, Except.ok.injEq] at h
    subst h
    simp
  | cons ch rest ih =>
    intro ifi seen ifi2 h
    simp only [parseIfaceHosts] at h
    split at h
    · simp at h
    · rename_i host hph
      split at h
      · simp at h
      · rename_i hnotseen
        obtain ⟨hname, hnodup, hseen, hburst⟩ := ih _ _ _ h
        have hHost : host.Host = ch.Host := (parseHost_ok hph).1
        refine ⟨hname, ?_, ?_, ?_⟩
        · rw [List.map_cons, List.nodup_cons]
          refine ⟨?_, hnodup⟩
          intro hmem
          have hni := hseen _ hmem
          rw [hHost] at hni
          exact hni (List.mem_cons_self _ _)
        · intro s hs
          simp only [List.map_cons, List.mem_cons] at hs
          rcases hs with rfl | hmem
          · rw [← hHost]
            exact hnotseen
          · intro hns
            exact hseen _ hmem (List.mem_cons_of_mem _ hns)
        · intro c hc v hv
          rcases List.mem_cons.mp hc with rfl | hcm
          · exact (parseHost_ok hph).2 v hv
          · exact hburst c hcm v hv

/-- Helper: a successful `parseInterface` keeps the configured name and
certifies every per-interface validity condition of the claim. -/
theorem parseInterface_ok {cfg : CfgInterface} {parent : Config}
    {ifi : Interface} (h : parseInterface cfg parent = Except.ok ifi) :
    ifi.Name = cfg.Name ∧ ValidIface cfg := by
  simp only [parseInterface] at h
  split at h
  · simp at h
  · rename_i table htable
    split at h
    · simp at h
    · rename_i metric hmetric
      split at h
      · simp at h
      · rename_i minUp hminup
        split at h
        · simp at h
        · rename_i bsz hbsz
          obtain ⟨hname, hnodup, _, hhostburst⟩ := parseIfaceHosts_ok _ _ _ _ h
          obtain ⟨htres1, htres2, htres3⟩ := checkTable_ok htable
          refine ⟨hname, hnodup, htres1, checkBurstSize_ok hbsz,
            checkMinimumUp_ok hminup, ?_, hhostburst⟩
          intro hm
          obtain ⟨v, hv⟩ := Option.isSome_iff_exists.mp hm
          have hne := checkMetric_ok hmetric v hv
          cases hT : cfg.Table with
          | none => exact absurd (htres2 hT) hne
          | some w => simp

/-- Helper: a successful interface loop implies pairwise-distinct interface
names (also fresh with respect to `seen`) and validity of every decoded
interface block. -/
theorem parseInterfaces_ok :
    ∀ (cfgs : List CfgInterface) (parent : Config) (seen : List String)
      (res : List Interface),
      parseInterfaces parent cfgs seen = Except.ok res →
      (cfgs.map fun c => c.Name).Nodup
      ∧ (∀ n ∈ cfgs.map fun c => c.Name, n ∉ seen)
      ∧ ∀ c ∈ cfgs, ValidIface c := by
  intro cfgs
  induction cfgs with
  | nil =>
    intro parent seen res h
    simp
  | cons c rest ih =>
    intro parent seen res h
    simp only [parseInterfaces] at h
    split at h
    · simp at h
    · rename_i ifi hpi
      split at h
      · simp at h
      · rename_i hnotseen
        split at h
        · simp at h
        · rename_i others hrec
          obtain ⟨hname, hvalid⟩ := parseInterface_ok hpi
          obtain ⟨hnodup, hseen, hall⟩ := ih parent (ifi.Name :: seen) others hrec
          refine ⟨?_, ?_, ?_⟩
          · rw [List.map_cons, List.nodup_cons]
            refine ⟨?_, hnodup⟩
            intro hmem
            have hni := hseen _ hmem
            rw [hname] at hni
            exact hni (List.mem_cons_self _ _)
          · intro n hn
            simp only [List.map_cons, List.mem_cons] at hn
            rcases hn with rfl | hmem
            · rw [← hname]
              exact hnotseen
            · intro hns
              exact hseen _ hmem (List.mem_cons_of_mem _ hns)
          · intro x hx
            rcases List.mem_cons.mp hx with rfl | hxm
            · exact hvalid
            · exact hall x hxm

/-- C9: whenever `Parse` returns a configuration (rather than an error), the
input was free of every rejected shape: duplicate interface names, duplicate
host addresses within an interface, reserved tables (`local` = 255,
`main` = 254), burst sizes outside `[1,5]` at any level, a `minimum_up`
outside `[1, len(hosts)]`, and a metric given without a table.
Contrapositively, every input containing one of those is rejected with an
error and no `Config` value. -/
theorem Parse_validates (cfg : CfgFile)
    (h : ∃ c, Parse cfg = Except.ok c) :
    (cfg.Interfaces.map fun i => i.Name).Nodup
    ∧ (∀ b, cfg.BurstSize = some b → 1 ≤ b ∧ b ≤ 5)
    ∧ ∀ i ∈ cfg.Interfaces, ValidIface i := by
  obtain ⟨c, h⟩ := h
  simp only [Parse] at h
  split at h
  · simp at h
  · split at h
    · simp at h
    · rename_i bs hbs
      split at h
      · simp at h
      · rename_i ifis hri
        obtain ⟨hnodup, _, hall⟩ := parseInterfaces_ok _ _ _ _ hri
        exact ⟨hnodup, checkBurstSize_ok hbs, hall⟩

/-- Witness for C9: a concrete valid configuration parses, and the theorem
certifies its validity conditions. -/
theorem Parse_validates_witness :
    (∃ c, Parse cfgW = Except.ok c)
    ∧ ((cfgW.Interfaces.map fun i => i.Name).Nodup
      ∧ (∀ b, cfgW.BurstSize = some b → 1 ≤ b ∧ b ≤ 5)
      ∧ ∀ i ∈ cfgW.Interfaces, ValidIface i) :=
  ⟨⟨_, rfl⟩, Parse_validates cfgW ⟨_, rfl⟩⟩

/-- Witness for the amended C8 theorem on the concrete hooked interface. -/
theorem execScript_shell_and_env_witness :
    scriptFor "UP" ifaceHook ≠ ""
    ∧ (execScript "UP" AF_INET ifaceHook =
        some (["/run/current-system/sw/bin/env", "sh", "-c",
               sq ++ scriptFor "UP" ifaceHook ++ sq],
              ["EVENT=" ++ "UP", "FAMILY=" ++ fam AF_INET] ++ ifiToEnv ifaceHook)
      ∧ sq ++ scriptFor "UP" ifaceHook ++ sq ≠ scriptFor "UP" ifaceHook) :=
  ⟨by decide, execScript_shell_and_env "UP" AF_INET ifaceHook (by decide)⟩

end Hodos
